import Mathlib

/-!
Verification development for the HPOA disease-annotation transform
(`kg_covid_19/transform_utils/disease_annotations/disease_annotations.py`).

The transform reads a tab-separated annotation file (after a fixed 5-line
preamble), classifies each row by its `Qualifier` field, builds deduplicated
node/edge collections, derives a deterministic version-3 UUID edge id, and
writes two fixed-schema TSV files.

Modelling conventions:
* A file is a `List String` of lines, without line terminators (the Python
  writer appends `os.linesep` after each record; we model records as lines).
* Machine-level hashing (`uuid.uuid3`, i.e. MD5 over namespace ++ name bytes)
  is embedded concretely below, over `List Nat` byte lists with explicit
  `% 2^32` arithmetic.
* The Python `set` of namedtuples is modelled as a `List` with
  membership-checked insertion (`insertSet`): idempotent insertion, stable
  insertion order standing in for the implementation-defined iteration order.
* `csv` reading with the source's `TsvDialect` (tab delimiter, no quoting,
  backslash escape, skipinitialspace) is modelled by `splitFields`;
  `DictReader` with the fixed 12-name header is modelled by `rowOfFields`,
  defined for lines that split into exactly 12 fields (all inputs considered
  by the specification have exactly 12 fields per data line).
-/

/-- The 12 named fields of one HPOA line, in file order
(`self._file_header` in the source). -/
structure SourceRow where
  databaseID : String
  diseaseName : String
  qualifier : String
  hpoID : String
  reference : String
  evidence : String
  onset : String
  frequency : String
  sex : String
  modifierF : String
  aspect : String
  biocuration : String
deriving DecidableEq, Repr

/-- `KgxNode` namedtuple from the source. -/
structure KgxNode where
  id : String
  category : String
  name : String
  provided_by : String
deriving DecidableEq, Repr

/-- `KgxEdge` namedtuple from the source. -/
structure KgxEdge where
  id : String
  subject : String
  predicate : String
  object : String
  relation : String
  primary_knowledge_source : String
  category : String
  publications : String
deriving DecidableEq, Repr

/-! ### MD5 (RFC 1321), the hash underlying `uuid.uuid3` -/

/-- Per-round MD5 shift amounts. -/
def md5S : List Nat :=
  [7, 12, 17, 22, 7, 12, 17, 22, 7, 12, 17, 22, 7, 12, 17, 22,
   5, 9, 14, 20, 5, 9, 14, 20, 5, 9, 14, 20, 5, 9, 14, 20,
   4, 11, 16, 23, 4, 11, 16, 23, 4, 11, 16, 23, 4, 11, 16, 23,
   6, 10, 15, 21, 6, 10, 15, 21, 6, 10, 15, 21, 6, 10, 15, 21]

/-- MD5 sine-table constants `floor(2^32 * |sin(i+1)|)`. -/
def md5K : List Nat :=
  [3614090360, 3905402710, 606105819, 3250441966,
   4118548399, 1200080426, 2821735955, 4249261313,
   1770035416, 2336552879, 4294925233, 2304563134,
   1804603682, 4254626195, 2792965006, 1236535329,
   4129170786, 3225465664, 643717713, 3921069994,
   3593408605, 38016083, 3634488961, 3889429448,
   568446438, 3275163606, 4107603335, 1163531501,
   2850285829, 4243563512, 1735328473, 2368359562,
   4294588738, 2272392833, 1839030562, 4259657740,
   2763975236, 1272893353, 4139469664, 3200236656,
   681279174, 3936430074, 3572445317, 76029189,
   3654602809, 3873151461, 530742520, 3299628645,
   4096336452, 1126891415, 2878612391, 4237533241,
   1700485571, 2399980690, 4293915773, 2240044497,
   1873313359, 4264355552, 2734768916, 1309151649,
   4149444226, 3174756917, 718787259, 3951481745]

/-- 32-bit left rotation (inputs are `< 2^32`). -/
def rotl32 (x s : Nat) : Nat :=
  ((x <<< s) ||| (x >>> (32 - s))) &&& 0xFFFFFFFF

/-- `k` little-endian bytes of `n`. -/
def leBytes : Nat → Nat → List Nat
  | 0, _ => []
  | k + 1, n => (n % 256) :: leBytes k (n / 256)

/-- Read a little-endian word from a byte list. -/
def leWord (bs : List Nat) : Nat :=
  bs.foldr (fun b acc => acc * 256 + b) 0

/-- MD5 padding: append `0x80`, zero bytes up to 56 mod 64, then the
64-bit little-endian bit length. -/
def md5pad (msg : List Nat) : List Nat :=
  msg ++ [0x80] ++ List.replicate ((119 - msg.length % 64) % 64) 0
      ++ leBytes 8 ((msg.length * 8) % (2 ^ 64))

/-- The sixteen 32-bit little-endian words of one 64-byte chunk. -/
def chunkWords (c : List Nat) : List Nat :=
  (List.range 16).map (fun i => leWord ((c.drop (4 * i)).take 4))

/-- The 64-byte chunks of a padded message. -/
def toChunks (l : List Nat) : List (List Nat) :=
  (List.range (l.length / 64)).map (fun i => (l.drop (64 * i)).take 64)

/-- One MD5 round step on state `(a, b, c, d)` with message words `M`. -/
def md5step (M : List Nat) (st : Nat × Nat × Nat × Nat) (i : Nat) :
    Nat × Nat × Nat × Nat :=
  let a := st.1
  let b := st.2.1
  let c := st.2.2.1
  let d := st.2.2.2
  let f :=
    if i < 16 then (b &&& c) ||| ((b ^^^ 0xFFFFFFFF) &&& d)
    else if i < 32 then (d &&& b) ||| ((d ^^^ 0xFFFFFFFF) &&& c)
    else if i < 48 then b ^^^ c ^^^ d
    else c ^^^ (b ||| (d ^^^ 0xFFFFFFFF))
  let g :=
    if i < 16 then i
    else if i < 32 then (5 * i + 1) % 16
    else if i < 48 then (3 * i + 5) % 16
    else (7 * i) % 16
  let t := (f + a + md5K.getD i 0 + M.getD g 0) % 4294967296
  (d, (b + rotl32 t (md5S.getD i 0)) % 4294967296, b, c)

/-- MD5 compression of one chunk into the running state. -/
def md5compress (st : Nat × Nat × Nat × Nat) (chunk : List Nat) :
    Nat × Nat × Nat × Nat :=
  let M := chunkWords chunk
  let r := (List.range 64).foldl (md5step M) st
  ((st.1 + r.1) % 4294967296,
   (st.2.1 + r.2.1) % 4294967296,
   (st.2.2.1 + r.2.2.1) % 4294967296,
   (st.2.2.2 + r.2.2.2) % 4294967296)

/-- MD5 digest (16 bytes) of a byte list. -/
def md5 (msg : List Nat) : List Nat :=
  let st := (toChunks (md5pad msg)).foldl md5compress
    (0x67452301, 0xefcdab89, 0x98badcfe, 0x10325476)
  leBytes 4 st.1 ++ leBytes 4 st.2.1 ++ leBytes 4 st.2.2.1 ++ leBytes 4 st.2.2.2

/-- UTF-8 encoding of one character. -/
def utf8Bytes (ch : Char) : List Nat :=
  let n := ch.toNat
  if n < 0x80 then [n]
  else if n < 0x800 then
    [0xC0 ||| (n >>> 6), 0x80 ||| (n &&& 0x3F)]
  else if n < 0x10000 then
    [0xE0 ||| (n >>> 12), 0x80 ||| ((n >>> 6) &&& 0x3F), 0x80 ||| (n &&& 0x3F)]
  else
    [0xF0 ||| (n >>> 18), 0x80 ||| ((n >>> 12) &&& 0x3F),
     0x80 ||| ((n >>> 6) &&& 0x3F), 0x80 ||| (n &&& 0x3F)]

/-- UTF-8 encoding of a string as a byte list. -/
def utf8Encode (s : String) : List Nat :=
  (s.data.map utf8Bytes).flatten

/-- Lower-case hexadecimal digit. -/
def hexDigit (n : Nat) : Char :=
  if n < 10 then Char.ofNat (48 + n) else Char.ofNat (87 + n)

/-- Two-digit lower-case hex rendering of one byte. -/
def byteHex (b : Nat) : String :=
  String.mk [hexDigit (b / 16), hexDigit (b % 16)]

/-- Hex rendering of a byte list. -/
def bytesHex (bs : List Nat) : String :=
  String.join (bs.map byteHex)

/-- The 16 bytes of `uuid.NAMESPACE_DNS`
(6ba7b810-9dad-11d1-80b4-00c04fd430c8). -/
def NAMESPACE_DNS : List Nat :=
  [0x6b, 0xa7, 0xb8, 0x10, 0x9d, 0xad, 0x11, 0xd1,
   0x80, 0xb4, 0x00, 0xc0, 0x4f, 0xd4, 0x30, 0xc8]

/-- The 16 bytes of a version-3 UUID: MD5 of namespace bytes followed by the
UTF-8 name, with the version nibble of byte 6 set to 3 and the variant bits
of byte 8 set to `10`. -/
def uuid3bytes (ns : List Nat) (name : String) : List Nat :=
  let d := md5 (ns ++ utf8Encode name)
  d.take 6 ++ [(d.getD 6 0 &&& 0x0F) ||| 0x30] ++ [d.getD 7 0]
    ++ [(d.getD 8 0 &&& 0x3F) ||| 0x80] ++ d.drop 9

/-- Canonical 8-4-4-4-12 rendering of 16 UUID bytes. -/
def uuidRender (bs : List Nat) : String :=
  bytesHex (bs.take 4) ++ "-" ++ bytesHex ((bs.drop 4).take 2) ++ "-"
    ++ bytesHex ((bs.drop 6).take 2) ++ "-" ++ bytesHex ((bs.drop 8).take 2)
    ++ "-" ++ bytesHex (bs.drop 10)

/-- `str(uuid.uuid3(ns, name))`. -/
def uuid3str (ns : List Nat) (name : String) : String :=
  uuidRender (uuid3bytes ns name)

/-! ### Reader: the `TsvDialect` record splitter and `DictReader` row mapping -/

/-- One record of the source dialect: tab delimiter, no quoting, backslash
escape, spaces skipped at field start (`skipinitialspace`). Arguments:
remaining characters, current field accumulated in reverse, whether we are at
the start of a field. -/
def splitFieldsAux : List Char → List Char → Bool → List String
  | [], cur, _ => [String.mk cur.reverse]
  | ['\\'], cur, _ => [String.mk ('\\' :: cur).reverse]
  | '\\' :: d :: rest, cur, _ => splitFieldsAux rest (d :: cur) false
  | c :: rest, cur, atStart =>
    if atStart && c == ' ' then splitFieldsAux rest cur true
    else if c == '\t' then String.mk cur.reverse :: splitFieldsAux rest [] true
    else splitFieldsAux rest (c :: cur) false

/-- Split one line into its fields under the source's `TsvDialect`. -/
def splitFields (line : String) : List String :=
  splitFieldsAux line.data [] true

/-- `csv.DictReader` row mapping against the fixed 12-name header: positional
binding of the 12 fields of one split line. -/
def rowOfFields : List String → Option SourceRow
  | [a, b, c, d, e, f, g, h, i, j, k, l] =>
    some ⟨a, b, c, d, e, f, g, h, i, j, k, l⟩
  | _ => none

/-- The Reader: skip the first 5 preamble lines unconditionally, then map
each remaining (12-field) line to a `SourceRow`. -/
def readRows (lines : List String) : List SourceRow :=
  (lines.drop 5).filterMap (fun l => rowOfFields (splitFields l))

/-! ### Errors -/

/-- The typed failures of the transform: `ValueError` on an unexpected
qualifier (carrying the qualifier and the offending row) and `ValueError`
on an unsupported compression tag. -/
inductive TransformError where
  | malformedQualifier (q : String) (row : SourceRow)
  | unsupportedCompression (tag : String)
deriving DecidableEq, Repr

/-- `DiseaseAnnotations._open_file`: the guard is Python's truthiness test
`if compression:`, so both `None` and the empty string are falsy and open
the file plainly; a truthy tag `gz` opens it gzip-decompressed, and any
other truthy tag raises. Decompression itself is I/O; the model yields the
decoded lines in every successful case. -/
def openFile (compression : Option String) (lines : List String) :
    Except TransformError (List String) :=
  match compression with
  | none => .ok lines
  | some tag =>
    if tag = "" then .ok lines
    else if tag = "gz" then .ok lines
    else .error (.unsupportedCompression tag)

/-! ### Row Classifier and Graph Builder -/

/-- Fixed constants from `DiseaseAnnotations.parse`. -/
def category : String := "biolink:Disease"

def provided_by : String := "HPO:hpoa"

def has_phenotype : String := "biolink:has_phenotype"

def has_symptom : String := "RO:0002200"

def phenotype_to_disease_association : String :=
  "biolink:PhenotypeToDiseaseAssociation"

/-- Default of `self._add_excluded_phenotype` set in
`DiseaseAnnotations.__init__`. -/
def add_excluded_phenotype_default : Bool := false

/-- The qualifier inspection in the read loop: `""` means the phenotype is
present, `NOT` means it is excluded, anything else raises `ValueError`
carrying the qualifier and the row. -/
def classifyQualifier (row : SourceRow) : Except TransformError Bool :=
  if row.qualifier = "" then .ok true
  else if row.qualifier = "NOT" then .ok false
  else .error (.malformedQualifier row.qualifier row)

/-- `str(phenotype_is_present)` in Python. -/
def pyStr : Bool → String
  | true => "True"
  | false => "False"

/-- The derived edge identifier:
`urn:uuid:` ++ `uuid3(NAMESPACE_DNS, '-'.join([disease_id, hpo_id, str(present)]))`. -/
def edgeId (diseaseId hpoId : String) (present : Bool) : String :=
  "urn:uuid:" ++ uuid3str NAMESPACE_DNS
    (String.intercalate "-" [diseaseId, hpoId, pyStr present])

/-- The node built from a retained row. -/
def buildNode (row : SourceRow) : KgxNode :=
  { id := row.databaseID, category := category,
    name := row.diseaseName, provided_by := provided_by }

/-- The edge built from a retained row and its presence boolean. -/
def buildEdge (row : SourceRow) (present : Bool) : KgxEdge :=
  { id := edgeId row.databaseID row.hpoID present,
    subject := row.databaseID, predicate := has_phenotype,
    object := row.hpoID, relation := has_symptom,
    primary_knowledge_source := provided_by,
    category := phenotype_to_disease_association,
    publications := row.reference }

/-- Set-semantics insertion: adding an element already present is a no-op
(Python `set.add`); fresh elements are appended in insertion order. -/
def insertSet {α : Type} [DecidableEq α] (x : α) (s : List α) : List α :=
  if x ∈ s then s else s ++ [x]

/-- The read loop of `DiseaseAnnotations.parse`: classify each row, skip
excluded rows unless `addExcluded`, and insert the built node and edge into
the running collections. -/
def readLoop (addExcluded : Bool) :
    List SourceRow → List KgxNode → List KgxEdge →
    Except TransformError (List KgxNode × List KgxEdge)
  | [], nodes, edges => .ok (nodes, edges)
  | row :: rest, nodes, edges =>
    match classifyQualifier row with
    | .error e => .error e
    | .ok present =>
      if !addExcluded && !present then
        readLoop addExcluded rest nodes edges
      else
        readLoop addExcluded rest (insertSet (buildNode row) nodes)
          (insertSet (buildEdge row present) edges)

/-- Node and edge collections built from the parsed rows, starting empty. -/
def buildSets (addExcluded : Bool) (rows : List SourceRow) :
    Except TransformError (List KgxNode × List KgxEdge) :=
  readLoop addExcluded rows [] []

/-! ### Writer -/

/-- A field as the `csv` writer emits it under `TsvDialect` (`QUOTE_NONE`
with backslash escape): delimiter, escape and line-terminator characters are
backslash-escaped, everything else is literal. -/
def escapeField (s : String) : String :=
  String.mk ((s.data.map (fun c =>
    if c == '\t' || c == '\\' || c == '\n' || c == '\r' then ['\\', c]
    else [c])).flatten)

/-- One written record: escaped fields joined by tabs. -/
def renderRecord (cols : List String) : String :=
  String.intercalate "\t" (cols.map escapeField)

/-- `node_tsv_column_names` in the source. -/
def node_tsv_column_names : List String :=
  ["id", "category", "name", "provided_by"]

/-- `edge_tsv_column_names` in the source: note the empty-named trailing
column. -/
def edge_tsv_column_names : List String :=
  ["subject", "predicate", "object", "relation", "provided_by", ""]

/-- The column values written for one node. -/
def nodeRecord (n : KgxNode) : List String :=
  [n.id, n.category, n.name, n.provided_by]

/-- The column values written for one edge. The row dict built in the source
has no entry for the empty-named column, so `DictWriter` fills it with the
default `restval` empty string; `id`, `category` and `publications` are not
written. -/
def edgeRecord (e : KgxEdge) : List String :=
  [e.subject, e.predicate, e.object, e.relation, e.primary_knowledge_source, ""]

/-- The nodes file: header line then one record per node. -/
def writeNodes (nodes : List KgxNode) : List String :=
  renderRecord node_tsv_column_names :: nodes.map (fun n => renderRecord (nodeRecord n))

/-- The edges file: header line then one record per edge. -/
def writeEdges (edges : List KgxEdge) : List String :=
  renderRecord edge_tsv_column_names :: edges.map (fun e => renderRecord (edgeRecord e))

/-- The two written files. -/
structure TransformOutput where
  nodesFile : List String
  edgesFile : List String
deriving DecidableEq, Repr

/-- `DiseaseAnnotations.parse` end to end: open the (possibly compressed)
input, skip the preamble, run the read loop, then write both files. On any
error nothing is written. -/
def parse (addExcluded : Bool) (compression : Option String)
    (lines : List String) : Except TransformError TransformOutput :=
  match openFile compression lines with
  | .error e => .error e
  | .ok content =>
    match buildSets addExcluded (readRows content) with
    | .error e => .error e
    | .ok (nodes, edges) =>
      .ok { nodesFile := writeNodes nodes, edgesFile := writeEdges edges }

/-! ### Concrete sample inputs used in end-to-end statements -/

/-- Five arbitrary preamble lines (the Reader skips them unconditionally). -/
def preamble5 : List String :=
  ["#description", "#version", "#tracker", "#release", "#header"]

/-- A 12-field line with an empty `Qualifier` (asserted phenotype). -/
def line6 : String :=
  "OMIM:101600\tDiseaseX\t\tHP:0001\tPMID:1\tIEA\t\t\t\t\tP\t2021"

/-- Like `line6` but with `Reference` `PMID:2`. -/
def line7 : String :=
  "OMIM:101600\tDiseaseX\t\tHP:0001\tPMID:2\tIEA\t\t\t\t\tP\t2021"

/-- Like `line6` but with `Qualifier` `NOT` (negated phenotype). -/
def lineNeg : String :=
  "OMIM:101600\tDiseaseX\tNOT\tHP:0001\tPMID:1\tIEA\t\t\t\t\tP\t2021"

/-- The row parsed from `line6`. -/
def sampleRowA : SourceRow :=
  ⟨"OMIM:101600", "DiseaseX", "", "HP:0001", "PMID:1", "IEA",
   "", "", "", "", "P", "2021"⟩

/-- The row parsed from `line7`. -/
def sampleRowB : SourceRow :=
  ⟨"OMIM:101600", "DiseaseX", "", "HP:0001", "PMID:2", "IEA",
   "", "", "", "", "P", "2021"⟩

/-- The row parsed from `lineNeg`. -/
def sampleRowNeg : SourceRow :=
  ⟨"OMIM:101600", "DiseaseX", "NOT", "HP:0001", "PMID:1", "IEA",
   "", "", "", "", "P", "2021"⟩

/-- A row with a malformed `Qualifier`. -/
def sampleRowBad : SourceRow :=
  ⟨"OMIM:101600", "DiseaseX", "MAYBE", "HP:0001", "PMID:1", "IEA",
   "", "", "", "", "P", "2021"⟩

/-- The line `sampleRowBad` is parsed from. -/
def lineBad : String :=
  "OMIM:101600\tDiseaseX\tMAYBE\tHP:0001\tPMID:1\tIEA\t\t\t\t\tP\t2021"

/-! ### Sanity anchors: the hash embedding against published test vectors -/

set_option maxRecDepth 100000 in
theorem md5_empty_vector :
    bytesHex (md5 []) = "d41d8cd98f00b204e9800998ecf8427e" := by decide

set_option maxRecDepth 100000 in
theorem md5_abc_vector :
    bytesHex (md5 (utf8Encode "abc")) = "900150983cd24fb0d6963f7d28e17f72" := by
  decide

set_option maxRecDepth 100000 in
theorem uuid3_dns_python_org_vector :
    uuid3str NAMESPACE_DNS "python.org" =
      "6fa459ea-ee8a-3ca4-894e-db77e160355e" := by decide

/-! ### Helper lemmas about set-semantics insertion and the read loop -/

theorem mem_insertSet_self {α : Type} [DecidableEq α] (x : α) (s : List α) :
    x ∈ insertSet x s := by
  unfold insertSet
  by_cases h : x ∈ s
  · simp [h]
  · simp [h]

theorem mem_insertSet_of_mem {α : Type} [DecidableEq α] {y : α} (x : α)
    {s : List α} (h : y ∈ s) : y ∈ insertSet x s := by
  unfold insertSet
  by_cases hx : x ∈ s <;> simp [hx, h]

theorem insertSet_eq_of_mem {α : Type} [DecidableEq α] {x : α} {s : List α}
    (h : x ∈ s) : insertSet x s = s := by
  simp [insertSet, h]

theorem insertSet_idem {α : Type} [DecidableEq α] (x : α) (s : List α) :
    insertSet x (insertSet x s) = insertSet x s :=
  insertSet_eq_of_mem (mem_insertSet_self x s)

theorem mem_insertSet_iff {α : Type} [DecidableEq α] {y x : α} {s : List α} :
    y ∈ insertSet x s ↔ y = x ∨ y ∈ s := by
  unfold insertSet
  by_cases h : x ∈ s
  · rw [if_pos h]
    constructor
    · exact Or.inr
    · rintro (rfl | hy)
      · exact h
      · exact hy
  · rw [if_neg h]
    simp [or_comm]

theorem readLoop_mono (f : Bool) (rows : List SourceRow) :
    ∀ (ns N : List KgxNode) (es E : List KgxEdge),
      readLoop f rows ns es = .ok (N, E) →
      (∀ x ∈ ns, x ∈ N) ∧ (∀ y ∈ es, y ∈ E) := by
  induction rows with
  | nil =>
    intro ns N es E h
    simp only [readLoop, Except.ok.injEq, Prod.mk.injEq] at h
    obtain ⟨rfl, rfl⟩ := h
    exact ⟨fun x hx => hx, fun y hy => hy⟩
  | cons row rest ih =>
    intro ns N es E h
    cases hq : classifyQualifier row with
    | error e =>
      simp only [readLoop, hq] at h
      exact (Except.noConfusion h)
    | ok present =>
      simp only [readLoop, hq] at h
      cases hb : (!f && !present) with
      | true =>
        simp only [hb, reduceIte] at h
        exact ih ns N es E h
      | false =>
        simp only [hb, reduceIte] at h
        have hrec := ih _ N _ E h
        exact ⟨fun x hx => hrec.1 x (mem_insertSet_of_mem _ hx),
               fun y hy => hrec.2 y (mem_insertSet_of_mem _ hy)⟩

theorem readLoop_replay (f : Bool) (rows : List SourceRow) :
    ∀ (ns N : List KgxNode) (es E : List KgxEdge),
      readLoop f rows ns es = .ok (N, E) →
      readLoop f rows N E = .ok (N, E) := by
  induction rows with
  | nil => intro ns N es E _; rfl
  | cons row rest ih =>
    intro ns N es E h
    cases hq : classifyQualifier row with
    | error e =>
      simp only [readLoop, hq] at h
      exact (Except.noConfusion h)
    | ok present =>
      simp only [readLoop, hq] at h ⊢
      cases hb : (!f && !present) with
      | true =>
        simp only [hb, reduceIte] at h ⊢
        exact ih ns N es E h
      | false =>
        simp only [hb, reduceIte] at h ⊢
        have hm := readLoop_mono f rest _ N _ E h
        rw [insertSet_eq_of_mem (hm.1 _ (mem_insertSet_self _ _)),
            insertSet_eq_of_mem (hm.2 _ (mem_insertSet_self _ _))]
        exact ih _ N _ E h

theorem readLoop_append_ok (f : Bool) (a : List SourceRow) :
    ∀ (b : List SourceRow) (ns N : List KgxNode) (es E : List KgxEdge),
      readLoop f a ns es = .ok (N, E) →
      readLoop f (a ++ b) ns es = readLoop f b N E := by
  induction a with
  | nil =>
    intro b ns N es E h
    simp only [readLoop, Except.ok.injEq, Prod.mk.injEq] at h
    obtain ⟨rfl, rfl⟩ := h
    rfl
  | cons row rest ih =>
    intro b ns N es E h
    cases hq : classifyQualifier row with
    | error e =>
      simp only [readLoop, hq] at h
      exact (Except.noConfusion h)
    | ok present =>
      simp only [List.cons_append, readLoop, hq] at h ⊢
      cases hb : (!f && !present) with
      | true =>
        simp only [hb, reduceIte] at h ⊢
        exact ih b ns N es E h
      | false =>
        simp only [hb, reduceIte] at h ⊢
        exact ih b _ N _ E h

theorem readLoop_error_of_bad (f : Bool) (rows : List SourceRow) :
    ∀ (ns : List KgxNode) (es : List KgxEdge),
      (∃ row ∈ rows, row.qualifier ≠ "" ∧ row.qualifier ≠ "NOT") →
      ∃ row : SourceRow, (row.qualifier ≠ "" ∧ row.qualifier ≠ "NOT") ∧
        readLoop f rows ns es = .error (.malformedQualifier row.qualifier row) := by
  induction rows with
  | nil =>
    intro ns es h
    obtain ⟨row, hmem, _⟩ := h
    cases hmem
  | cons row rest ih =>
    intro ns es h
    by_cases hbad : row.qualifier ≠ "" ∧ row.qualifier ≠ "NOT"
    · have hc : classifyQualifier row =
          .error (.malformedQualifier row.qualifier row) := by
        simp [classifyQualifier, hbad.1, hbad.2]
      exact ⟨row, hbad, by simp [readLoop, hc]⟩
    · obtain ⟨r, hmem, hr⟩ := h
      have hrrest : r ∈ rest := by
        cases hmem with
        | head => exact absurd hr hbad
        | tail _ h2 => exact h2
      rw [not_and_or, not_not, not_not] at hbad
      cases hbad with
      | inl h1 =>
        have hc : classifyQualifier row = .ok true := by
          simp [classifyQualifier, h1]
        obtain ⟨r2, hr2, heq⟩ :=
          ih (insertSet (buildNode row) ns) (insertSet (buildEdge row true) es)
            ⟨r, hrrest, hr⟩
        refine ⟨r2, hr2, ?_⟩
        have hstep : readLoop f (row :: rest) ns es =
            readLoop f rest (insertSet (buildNode row) ns)
              (insertSet (buildEdge row true) es) := by
          simp [readLoop, hc]
        rw [hstep, heq]
      | inr h1 =>
        have hc : classifyQualifier row = .ok false := by
          simp [classifyQualifier, h1]
        cases f with
        | false =>
          obtain ⟨r2, hr2, heq⟩ := ih ns es ⟨r, hrrest, hr⟩
          refine ⟨r2, hr2, ?_⟩
          have hstep : readLoop false (row :: rest) ns es =
              readLoop false rest ns es := by
            simp [readLoop, hc]
          rw [hstep, heq]
        | true =>
          obtain ⟨r2, hr2, heq⟩ :=
            ih (insertSet (buildNode row) ns)
              (insertSet (buildEdge row false) es) ⟨r, hrrest, hr⟩
          refine ⟨r2, hr2, ?_⟩
          have hstep : readLoop true (row :: rest) ns es =
              readLoop true rest (insertSet (buildNode row) ns)
                (insertSet (buildEdge row false) es) := by
            simp [readLoop, hc]
          rw [hstep, heq]

/-! ### The claims -/

/-- C1: the classifier maps an empty `Qualifier` to asserted (present) and
`NOT` to negated (excluded); any other qualifier makes the transform fail
with the malformed-qualifier error carrying the offending row, whatever the
retain-excluded flag is. -/
theorem c1_qualifier_classification (row : SourceRow) :
    (row.qualifier = "" → classifyQualifier row = .ok true) ∧
    (row.qualifier = "NOT" → classifyQualifier row = .ok false) ∧
    (row.qualifier ≠ "" → row.qualifier ≠ "NOT" →
      classifyQualifier row = .error (.malformedQualifier row.qualifier row) ∧
      ∀ (addExcluded : Bool) (rest : List SourceRow)
        (nodes : List KgxNode) (edges : List KgxEdge),
        readLoop addExcluded (row :: rest) nodes edges =
          .error (.malformedQualifier row.qualifier row)) := by
  refine ⟨fun h => ?_, fun h => ?_, fun h1 h2 => ?_⟩
  · simp [classifyQualifier, h]
  · simp [classifyQualifier, h]
  · have hc : classifyQualifier row =
        .error (.malformedQualifier row.qualifier row) := by
      simp [classifyQualifier, h1, h2]
    exact ⟨hc, fun a rest ns es => by simp [readLoop, hc]⟩

theorem c1_witness :
    classifyQualifier sampleRowBad =
        .error (.malformedQualifier "MAYBE" sampleRowBad) ∧
    readLoop false [sampleRowBad] [] [] =
        .error (.malformedQualifier "MAYBE" sampleRowBad) := by
  have h := (c1_qualifier_classification sampleRowBad).2.2
    (by decide) (by decide)
  exact ⟨h.1, h.2 false [] [] []⟩

/-- C2: the derived edge identifier is `urn:uuid:` followed by the version-3
UUID in the DNS namespace of the dash-joined
`(disease_id, phenotype_id, presence-as-string)` triple, so any two rows
agreeing on that triple derive byte-identical edge id strings. -/
theorem c2_edge_id_content_addressed :
    (∀ (row : SourceRow) (present : Bool),
      (buildEdge row present).id =
        "urn:uuid:" ++ uuid3str NAMESPACE_DNS
          (String.intercalate "-" [row.databaseID, row.hpoID, pyStr present])) ∧
    (∀ (r1 r2 : SourceRow) (p1 p2 : Bool),
      r1.databaseID = r2.databaseID → r1.hpoID = r2.hpoID → p1 = p2 →
      (buildEdge r1 p1).id = (buildEdge r2 p2).id) := by
  constructor
  · intro row present
    rfl
  · intro r1 r2 p1 p2 h1 h2 h3
    simp [buildEdge, edgeId, h1, h2, h3]

theorem c2_witness :
    (buildEdge sampleRowA true).id = (buildEdge sampleRowB true).id :=
  c2_edge_id_content_addressed.2 sampleRowA sampleRowB true true rfl rfl rfl

/-- C3: the retain-excluded flag defaults to false; with it false a negated
row is dropped silently (no node, no edge, no error) and a file whose only
data row is negated yields header-only outputs, while with the flag true a
negated row flows through the builder exactly as an asserted row does. -/
theorem c3_retain_excluded_flag_behavior :
    add_excluded_phenotype_default = false ∧
    (∀ (row : SourceRow) (rest : List SourceRow)
      (nodes : List KgxNode) (edges : List KgxEdge),
      row.qualifier = "NOT" →
        readLoop false (row :: rest) nodes edges =
          readLoop false rest nodes edges ∧
        readLoop true (row :: rest) nodes edges =
          readLoop true rest (insertSet (buildNode row) nodes)
            (insertSet (buildEdge row false) edges)) ∧
    (∀ (row : SourceRow) (rest : List SourceRow)
      (nodes : List KgxNode) (edges : List KgxEdge),
      row.qualifier = "" →
        readLoop true (row :: rest) nodes edges =
          readLoop true rest (insertSet (buildNode row) nodes)
            (insertSet (buildEdge row true) edges)) ∧
    parse false none (preamble5 ++ [lineNeg]) =
      .ok { nodesFile := ["id\tcategory\tname\tprovided_by"],
            edgesFile := ["subject\tpredicate\tobject\trelation\tprovided_by\t"] } := by
  refine ⟨rfl, ?_, ?_, by rfl⟩
  · intro row rest ns es hq
    have hc : classifyQualifier row = .ok false := by
      simp [classifyQualifier, hq]
    constructor <;> simp [readLoop, hc]
  · intro row rest ns es hq
    have hc : classifyQualifier row = .ok true := by
      simp [classifyQualifier, hq]
    simp [readLoop, hc]

theorem c3_witness :
    readLoop false [sampleRowNeg] [] [] = .ok ([], []) ∧
    readLoop true [sampleRowNeg] [] [] =
      readLoop true [] (insertSet (buildNode sampleRowNeg) [])
        (insertSet (buildEdge sampleRowNeg false) []) := by
  have h := (c3_retain_excluded_flag_behavior.2.1 sampleRowNeg [] [] []) (by decide)
  exact ⟨h.1, h.2⟩

/-- C4: whenever the transform succeeds, every edge's subject identifier is
the id of some node in the same output, because node and edge are inserted
together from the same row. -/
theorem c4_edge_subject_has_node (addExcluded : Bool) (rows : List SourceRow)
    (N : List KgxNode) (E : List KgxEdge)
    (h : buildSets addExcluded rows = .ok (N, E)) :
    ∀ e ∈ E, ∃ n ∈ N, n.id = e.subject := by
  have main : ∀ (rs : List SourceRow) (ns : List KgxNode) (es : List KgxEdge)
      (N2 : List KgxNode) (E2 : List KgxEdge),
      readLoop addExcluded rs ns es = .ok (N2, E2) →
      (∀ e ∈ es, ∃ n ∈ ns, n.id = e.subject) →
      ∀ e ∈ E2, ∃ n ∈ N2, n.id = e.subject := by
    intro rs
    induction rs with
    | nil =>
      intro ns es N2 E2 hr hin
      simp only [readLoop, Except.ok.injEq, Prod.mk.injEq] at hr
      obtain ⟨rfl, rfl⟩ := hr
      exact hin
    | cons row rest ih =>
      intro ns es N2 E2 hr hin
      cases hq : classifyQualifier row with
      | error e =>
        simp only [readLoop, hq] at hr
        exact (Except.noConfusion hr)
      | ok present =>
        simp only [readLoop, hq] at hr
        cases hb : (!addExcluded && !present) with
        | true =>
          simp only [hb, reduceIte] at hr
          exact ih ns es N2 E2 hr hin
        | false =>
          simp only [hb, reduceIte] at hr
          refine ih _ _ N2 E2 hr ?_
          intro e he
          rcases mem_insertSet_iff.mp he with rfl | hes
          · exact ⟨buildNode row, mem_insertSet_self _ _, rfl⟩
          · obtain ⟨n, hn, hid⟩ := hin e hes
            exact ⟨n, mem_insertSet_of_mem _ hn, hid⟩
  exact main rows [] [] N E h (fun e he => absurd he (List.not_mem_nil e))

theorem c4_witness :
    ∃ n ∈ [buildNode sampleRowA],
      n.id = (buildEdge sampleRowA true).subject :=
  c4_edge_subject_has_node false [sampleRowA]
    [buildNode sampleRowA] [buildEdge sampleRowA true] rfl
    (buildEdge sampleRowA true) (List.mem_singleton.mpr rfl)

/-- C5: the node file has exactly the columns id, category, name,
provided_by in that order; the edge file has exactly subject, predicate,
object, relation, provided_by and an empty-named trailing column; the
written edge record does not depend on the in-memory id, category or
publications fields. -/
theorem c5_writer_schema :
    (∀ nodes : List KgxNode,
      writeNodes nodes =
        "id\tcategory\tname\tprovided_by" ::
          nodes.map (fun n =>
            renderRecord [n.id, n.category, n.name, n.provided_by])) ∧
    (∀ edges : List KgxEdge,
      writeEdges edges =
        "subject\tpredicate\tobject\trelation\tprovided_by\t" ::
          edges.map (fun e =>
            renderRecord [e.subject, e.predicate, e.object, e.relation,
              e.primary_knowledge_source, ""])) ∧
    (∀ e1 e2 : KgxEdge,
      e1.subject = e2.subject → e1.predicate = e2.predicate →
      e1.object = e2.object → e1.relation = e2.relation →
      e1.primary_knowledge_source = e2.primary_knowledge_source →
      edgeRecord e1 = edgeRecord e2) := by
  refine ⟨fun nodes => rfl, fun edges => rfl, fun e1 e2 h1 h2 h3 h4 h5 => ?_⟩
  simp [edgeRecord, h1, h2, h3, h4, h5]

theorem c5_witness :
    edgeRecord ⟨"idA", "s", "p", "o", "r", "k", "catA", "pubA"⟩ =
      edgeRecord ⟨"idB", "s", "p", "o", "r", "k", "catB", "pubB"⟩ :=
  c5_writer_schema.2.2 ⟨"idA", "s", "p", "o", "r", "k", "catA", "pubA"⟩
    ⟨"idB", "s", "p", "o", "r", "k", "catB", "pubB"⟩ rfl rfl rfl rfl rfl

/-- C6: on an input of 5 preamble lines followed by one asserted row for
`OMIM:101600` and `HP:0001`, the transform writes exactly one node data row
`(OMIM:101600, biolink:Disease, DiseaseX, HPO:hpoa)` and one edge data row
`(OMIM:101600, biolink:has_phenotype, HP:0001, RO:0002200, HPO:hpoa, "")`. -/
theorem c6_end_to_end_asserted_row :
    parse false none (preamble5 ++ [line6]) =
      .ok { nodesFile :=
              ["id\tcategory\tname\tprovided_by",
               "OMIM:101600\tbiolink:Disease\tDiseaseX\tHPO:hpoa"],
            edgesFile :=
              ["subject\tpredicate\tobject\trelation\tprovided_by\t",
               "OMIM:101600\tbiolink:has_phenotype\tHP:0001\tRO:0002200\tHPO:hpoa\t"] } := by
  rfl

/-- C7 counterexample: the claim predicts that every compression tag other
than absent or `gz` fails with the unsupported-compression error, but the
source's truthiness guard `if compression:` treats the empty-string tag as
no compression: at tag `""` the Reader opens the file plainly and the whole
transform succeeds with written output. -/
theorem c7_counterexample :
    openFile (some "") (preamble5 ++ [line6]) = .ok (preamble5 ++ [line6]) ∧
    parse false (some "") (preamble5 ++ [line6]) =
      .ok { nodesFile :=
              ["id\tcategory\tname\tprovided_by",
               "OMIM:101600\tbiolink:Disease\tDiseaseX\tHPO:hpoa"],
            edgesFile :=
              ["subject\tpredicate\tobject\trelation\tprovided_by\t",
               "OMIM:101600\tbiolink:has_phenotype\tHP:0001\tRO:0002200\tHPO:hpoa\t"] } ∧
    parse false (some "") (preamble5 ++ [line6]) ≠
      .error (.unsupportedCompression "") :=
  ⟨rfl, rfl, fun h => Except.noConfusion h⟩

/-- C7 (amended): no compression, the empty (falsy) tag — which the source's
truthiness guard treats as no compression — and the `gz` tag are accepted;
any other non-empty compression tag fails the transform with the
unsupported-compression error before any row is read, producing no
output. -/
theorem c7_compression_tags (lines : List String) :
    openFile none lines = .ok lines ∧
    openFile (some "") lines = .ok lines ∧
    openFile (some "gz") lines = .ok lines ∧
    (∀ tag : String, tag ≠ "" → tag ≠ "gz" →
      openFile (some tag) lines = .error (.unsupportedCompression tag) ∧
      ∀ addExcluded : Bool,
        parse addExcluded (some tag) lines =
          .error (.unsupportedCompression tag)) := by
  refine ⟨rfl, rfl, rfl, fun tag ht1 ht2 => ?_⟩
  have ho : openFile (some tag) lines = .error (.unsupportedCompression tag) := by
    simp [openFile, ht1, ht2]
  exact ⟨ho, fun f => by simp [parse, ho]⟩

theorem c7_witness :
    openFile (some "zip") [] = .error (.unsupportedCompression "zip") ∧
    parse false (some "zip") [] = .error (.unsupportedCompression "zip") := by
  have h := (c7_compression_tags []).2.2.2 "zip" (by decide) (by decide)
  exact ⟨h.1, h.2 false⟩

/-- C8: inserting a tuple-identical node or edge a second time is a no-op
and raises no error, so duplicate projections collapse to one element, and
running the whole read loop twice over the same rows yields the same node
and edge collections. -/
theorem c8_set_semantics (x : KgxNode) (y : KgxEdge)
    (s : List KgxNode) (t : List KgxEdge) :
    insertSet x (insertSet x s) = insertSet x s ∧
    (x ∈ s → insertSet x s = s) ∧
    insertSet y (insertSet y t) = insertSet y t ∧
    (y ∈ t → insertSet y t = t) ∧
    (∀ (addExcluded : Bool) (rows : List SourceRow)
      (N : List KgxNode) (E : List KgxEdge),
      buildSets addExcluded rows = .ok (N, E) →
      buildSets addExcluded (rows ++ rows) = .ok (N, E)) := by
  refine ⟨insertSet_idem x s, fun h => insertSet_eq_of_mem h,
    insertSet_idem y t, fun h => insertSet_eq_of_mem h, ?_⟩
  intro f rows N E h
  exact (readLoop_append_ok f rows rows [] N [] E h).trans
    (readLoop_replay f rows [] N [] E h)

theorem c8_witness :
    insertSet (buildNode sampleRowA) (insertSet (buildNode sampleRowA) []) =
        insertSet (buildNode sampleRowA) [] ∧
    insertSet (buildNode sampleRowA) [buildNode sampleRowA] =
        [buildNode sampleRowA] ∧
    insertSet (buildEdge sampleRowA true) [buildEdge sampleRowA true] =
        [buildEdge sampleRowA true] ∧
    buildSets false ([sampleRowA] ++ [sampleRowA]) =
        .ok ([buildNode sampleRowA], [buildEdge sampleRowA true]) := by
  have h := c8_set_semantics (buildNode sampleRowA) (buildEdge sampleRowA true)
    [buildNode sampleRowA] [buildEdge sampleRowA true]
  have h0 := c8_set_semantics (buildNode sampleRowA) (buildEdge sampleRowA true)
    [] []
  exact ⟨h0.1, h.2.1 (List.mem_singleton.mpr rfl),
    h.2.2.2.1 (List.mem_singleton.mpr rfl),
    h.2.2.2.2 false [sampleRowA] [buildNode sampleRowA]
      [buildEdge sampleRowA true] rfl⟩

/-- C9: if any parsed row has a malformed qualifier the transform fails
inside the read loop, which runs to completion strictly before the write
phase: on such inputs `parse` returns the malformed-qualifier error and no
output file content is produced at all. -/
theorem c9_malformed_aborts_whole_run (addExcluded : Bool)
    (lines : List String)
    (h : ∃ row ∈ readRows lines, row.qualifier ≠ "" ∧ row.qualifier ≠ "NOT") :
    ∃ row : SourceRow, (row.qualifier ≠ "" ∧ row.qualifier ≠ "NOT") ∧
      parse addExcluded none lines =
        .error (.malformedQualifier row.qualifier row) := by
  obtain ⟨r2, hr2, heq⟩ :=
    readLoop_error_of_bad addExcluded (readRows lines) [] [] h
  refine ⟨r2, hr2, ?_⟩
  simp [parse, openFile, buildSets, heq]

theorem c9_witness :
    ∃ row : SourceRow, (row.qualifier ≠ "" ∧ row.qualifier ≠ "NOT") ∧
      parse false none (preamble5 ++ [lineBad]) =
        .error (.malformedQualifier row.qualifier row) :=
  c9_malformed_aborts_whole_run false (preamble5 ++ [lineBad])
    ⟨sampleRowBad, by decide, by decide, by decide⟩

set_option maxRecDepth 100000 in
/-- C10: two retained rows agreeing on disease id, phenotype id and presence
but differing in `Reference` produce two distinct in-memory edges whose
written columns coincide, so the edges file can contain byte-identical
duplicate data rows. -/
theorem c10_reference_distinct_edges_same_row :
    (∀ (r1 r2 : SourceRow) (p : Bool),
      r1.databaseID = r2.databaseID → r1.hpoID = r2.hpoID →
      r1.reference ≠ r2.reference →
      buildEdge r1 p ≠ buildEdge r2 p ∧
      edgeRecord (buildEdge r1 p) = edgeRecord (buildEdge r2 p)) ∧
    parse false none (preamble5 ++ [line6, line7]) =
      .ok { nodesFile :=
              ["id\tcategory\tname\tprovided_by",
               "OMIM:101600\tbiolink:Disease\tDiseaseX\tHPO:hpoa"],
            edgesFile :=
              ["subject\tpredicate\tobject\trelation\tprovided_by\t",
               "OMIM:101600\tbiolink:has_phenotype\tHP:0001\tRO:0002200\tHPO:hpoa\t",
               "OMIM:101600\tbiolink:has_phenotype\tHP:0001\tRO:0002200\tHPO:hpoa\t"] } := by
  constructor
  · intro r1 r2 p h1 h2 h3
    refine ⟨fun he => h3 ?_, ?_⟩
    · exact congrArg KgxEdge.publications he
    · simp [edgeRecord, buildEdge, h1, h2]
  · rfl

theorem c10_witness :
    buildEdge sampleRowA true ≠ buildEdge sampleRowB true ∧
    edgeRecord (buildEdge sampleRowA true) =
      edgeRecord (buildEdge sampleRowB true) :=
  c10_reference_distinct_edges_same_row.1 sampleRowA sampleRowB true
    rfl rfl (by decide)
